import Mathlib

/-!
# Verification of the MarketEasy LinkedIn campaign workflow runtime

This development embeds the LinkedIn-campaign workflow of
`src/Backend/integrated_market_easy.py` (module 2, the LangGraph graph)
and checks the specification's claims about it.

Modelling conventions:
* JSON values produced by the generation collaborator are the inductive `Json`.
* The graph state `LinkedInGraphState` mirrors the `TypedDict` of the same
  name (lines 186-195).  A channel that has never been written is modelled by
  the field's initial value (`[]`, `""`, or `none`), matching the `.get`
  defaults the source uses when reading.
* External collaborators (the Groq LLM transport, `json.loads`, and the
  outbound webhook `requests.post`) are abstracted as the `Oracles` record;
  a prompt is modelled by the state data the source interpolates into the
  corresponding f-string.
* The execution engine (LangGraph's compiled graph with `MemorySaver` and
  `interrupt_before`) is an external dependency whose code is not in the
  repository; `advance`, `advanceLoop` and `applyUpdate` are modelled from
  the specification's ExecutionEngine and StateUpdater contracts.
-/

/-- A JSON value, the result type of the structured generation collaborator
(`json.loads` output in `JsonParsingLLMWrapper.invoke`). -/
inductive Json where
  | null : Json
  | bool : Bool → Json
  | num : Int → Json
  | str : String → Json
  | arr : List Json → Json
  | obj : List (String × Json) → Json

/-- Models Python's `res.get(key, default)` on the mapping returned by the
JSON wrapper.  The wrapper's error marker and well-formed replies are JSON
objects; a parsed non-object reply would raise `AttributeError` in the source
and is outside the modelled behaviour, here it yields the default. -/
def Json.getD (j : Json) (k : String) (d : Json) : Json :=
  match j with
  | .obj fs => (fs.lookup k).getD d
  | _ => d

/-- One record of `chat_history`: a `{role, content}` mapping.  The source
stores the role as a string literal and the content as whatever JSON value
`res.get` returned. -/
structure ChatMsg where
  role : String
  content : Json

/-- The workflow state threaded through the graph, mirroring the
`LinkedInGraphState` TypedDict (integrated_market_easy.py lines 186-195).
`none` / `[]` / `""` model a channel that has never been written. -/
structure LinkedInGraphState where
  chat_history : List ChatMsg := []
  user_input : String := ""
  intent : Option Json := none
  context : Option Json := none
  response : Option Json := none
  post_draft : Option Json := none
  user_feedback : String := ""
  approval_status : Option String := none
  webhook_response : Option Json := none

/-- A step's partial output: exactly the top-level keys the step names.
`none` means the key is absent from the output mapping. -/
structure StateUpdate where
  chat_history : Option (List ChatMsg) := none
  user_input : Option String := none
  intent : Option Json := none
  context : Option Json := none
  response : Option Json := none
  post_draft : Option Json := none
  user_feedback : Option String := none
  approval_status : Option String := none
  webhook_response : Option Json := none

/-- Shallow merge of a step output into the state: each top-level key named
by the update overwrites the state's value, every other key is unchanged
(LangGraph's default last-value channel semantics, as specified in the
data-model section of the spec). -/
def mergeUpdate (s : LinkedInGraphState) (u : StateUpdate) : LinkedInGraphState where
  chat_history := u.chat_history.getD s.chat_history
  user_input := u.user_input.getD s.user_input
  intent := match u.intent with | some j => some j | none => s.intent
  context := match u.context with | some j => some j | none => s.context
  response := match u.response with | some j => some j | none => s.response
  post_draft := match u.post_draft with | some j => some j | none => s.post_draft
  user_feedback := u.user_feedback.getD s.user_feedback
  approval_status := match u.approval_status with | some v => some v | none => s.approval_status
  webhook_response := match u.webhook_response with | some j => some j | none => s.webhook_response

/-- The nodes of the LinkedIn graph (builder wiring, lines 237-243). -/
inductive StepId where
  | chat_node
  | campaign_node
  | post_node
  | human_review_node
  | refinement_node
  | webhook_node
  deriving DecidableEq

/-- A prompt handed to the generation collaborator, modelled by the state
data the source interpolates into the corresponding f-string. -/
inductive Prompt where
  | chat (context : Json) (history : List ChatMsg) (user_input : String)
  | campaign (user_input : String) (context : Json)
  | post (user_input : String) (context : Json)
  | refine (post_draft : Json) (user_feedback : String)

/-- The external collaborators: `gen` is the transport-level LLM call
(`groq_llm.invoke`, may fail with a network/backend error), `parse` is
`json.loads` (`none` models `JSONDecodeError`), `deliver` is the outbound
webhook `requests.post(url, json=payload, timeout=t)` followed by
`raise_for_status` (`Except.error` models a raised request exception). -/
structure Oracles where
  gen : Prompt → Except String String
  parse : String → Option Json
  deliver : Json → Nat → Except String Unit

/-- Models Python's `str.strip()`: remove leading and trailing whitespace. -/
def pyStrip (s : String) : String :=
  String.mk (((s.data.dropWhile Char.isWhitespace).reverse.dropWhile Char.isWhitespace).reverse)

/-- Markdown code-fence stripping of `JsonParsingLLMWrapper.invoke`
(lines 177-180): drop a leading three-backtick-json / three-backtick fence
and a trailing three-backtick fence. -/
def stripCodeFences (content : String) : String :=
  let c := if content.startsWith "```json" then content.drop 7
           else if content.startsWith "```" then content.drop 3
           else content
  if c.endsWith "```" then c.dropRight 3 else c

/-- The error marker the wrapper returns when `json.loads` fails
(line 182): `\x7b"error": "JSON parse failed", "raw_content": content\x7d`. -/
def parseFailureMarker (raw : String) : Json :=
  Json.obj [("error", Json.str "JSON parse failed"), ("raw_content", Json.str raw)]

/-- `JsonParsingLLMWrapper.invoke` (lines 173-182): call the LLM (transport
failures propagate), strip whitespace and code fences, then parse; a parse
failure is recovered as the error marker. -/
def wrapperInvoke (o : Oracles) (p : Prompt) : Except String Json := do
  let content ← o.gen p
  let raw := stripCodeFences (pyStrip content)
  match o.parse (pyStrip raw) with
  | some j => pure j
  | none => pure (parseFailureMarker raw)

/-- `lk_chat_node` (lines 202-211): invoke the wrapper on the chat/routing
prompt, append the user message and the assistant reply (default `"Hi"`) to
`chat_history`, set `intent` from `route_decision` (default `"chat"`), and
store the reply under `response.chat_reply`. -/
def lk_chat_node (o : Oracles) (s : LinkedInGraphState) : Except String StateUpdate := do
  let res ← wrapperInvoke o (.chat (s.context.getD (Json.obj [])) s.chat_history s.user_input)
  let reply := res.getD "assistant_reply" (Json.str "Hi")
  pure { chat_history := some (s.chat_history ++
           [⟨"user", Json.str s.user_input⟩, ⟨"assistant", reply⟩]),
         intent := some (res.getD "route_decision" (Json.str "chat")),
         response := some (Json.obj [("chat_reply", reply)]) }

/-- `lk_campaign_node` (lines 213-215): the wrapper's output becomes
`response`. -/
def lk_campaign_node (o : Oracles) (s : LinkedInGraphState) : Except String StateUpdate := do
  let res ← wrapperInvoke o (.campaign s.user_input (s.context.getD Json.null))
  pure { response := some res }

/-- `lk_post_node` (lines 217-219): the wrapper's output becomes
`post_draft` and `approval_status` is set to `"pending"`. -/
def lk_post_node (o : Oracles) (s : LinkedInGraphState) : Except String StateUpdate := do
  let res ← wrapperInvoke o (.post s.user_input (s.context.getD Json.null))
  pure { post_draft := some res, approval_status := some "pending" }

/-- `lk_refinement_node` (lines 223-225): refine the draft using the
feedback; output overwrites `post_draft` and resets `approval_status`. -/
def lk_refinement_node (o : Oracles) (s : LinkedInGraphState) : Except String StateUpdate := do
  let res ← wrapperInvoke o (.refine (s.post_draft.getD (Json.obj [])) s.user_feedback)
  pure { post_draft := some res, approval_status := some "pending" }

/-- The webhook timeout passed to `requests.post` (line 231). -/
def webhookTimeoutSeconds : Nat := 10

/-- `lk_webhook_node` (lines 227-235): a single delivery attempt of
`post_draft` with a 10-second timeout; every exception is caught and the
outcome is stored into `webhook_response` as a success or error record. -/
def lk_webhook_node (o : Oracles) (s : LinkedInGraphState) : StateUpdate :=
  match o.deliver (s.post_draft.getD (Json.obj [])) webhookTimeoutSeconds with
  | .ok _ => { webhook_response := some (Json.obj [("status", Json.str "success")]) }
  | .error e => { webhook_response := some (Json.obj
      [("status", Json.str "error"), ("error_message", Json.str e)]) }

/-- Step dispatch, mirroring `add_node` wiring (lines 238-243).
`lk_human_review_node` is `pass`, i.e. no update. -/
def runStep (o : Oracles) : StepId → LinkedInGraphState → Except String StateUpdate
  | .chat_node, s => lk_chat_node o s
  | .campaign_node, s => lk_campaign_node o s
  | .post_node, s => lk_post_node o s
  | .human_review_node, _ => pure {}
  | .refinement_node, s => lk_refinement_node o s
  | .webhook_node, s => pure (lk_webhook_node o s)

/-- Models Python's `state.get(key) == value` for a possibly absent
string-valued channel read against a string literal: true exactly when the
channel holds that JSON string. -/
def isStrVal (j : Option Json) (v : String) : Bool :=
  match j with
  | some (Json.str s) => s == v
  | _ => false

/-- The transition rule of each step, from the edge wiring
(lines 245-251): the conditional edges out of `chat_node` (line 246) and
`human_review_node` (line 249), the unconditional edges, and `none` for
`END`. -/
def nextStep : StepId → LinkedInGraphState → Option StepId
  | .chat_node, s =>
      if isStrVal s.intent "campaign_generation" then some .campaign_node
      else if isStrVal s.intent "post_generation" then some .post_node
      else none
  | .campaign_node, _ => none
  | .post_node, _ => some .human_review_node
  | .human_review_node, s =>
      if s.approval_status == some "approved" then some .webhook_node
      else some .refinement_node
  | .refinement_node, _ => some .human_review_node
  | .webhook_node, _ => none

/-- The pause flag: `interrupt_before=["human_review_node"]` (line 253). -/
def pausesBefore : StepId → Bool
  | .human_review_node => true
  | _ => false

/-- The per-session checkpoint: latest committed state, the step the session
is about to run (`none` once terminal), and the terminated flag. -/
structure Checkpoint where
  state : LinkedInGraphState
  pending_step : Option StepId
  terminated : Bool

/-- A fresh session's checkpoint: empty state, pending at the entry step
`chat_node` (line 245). -/
def initCheckpoint : Checkpoint :=
  { state := {}, pending_step := some .chat_node, terminated := false }

/-- Modelled from the spec: the ExecutionEngine run loop.  The engine that
executes the compiled graph (LangGraph's Pregel loop with `MemorySaver` and
`interrupt_before`) is an external dependency, not code under src/; this
loop follows the specification's advance contract.  `committed` is the last
committed checkpoint.  Each iteration runs the pending step's handler
against the working state; a handler failure surfaces the error and commits
nothing for that step; otherwise the output is shallow-merged, the
transition is resolved, and the new checkpoint is committed — stopping at a
terminal transition, stopping *before* executing a step flagged
`pausesBefore` when it is reached by transition, and otherwise continuing.
Returns the committed checkpoint, an error if one surfaced, and the ordered
list of steps whose outputs were committed. -/
def advanceLoop (o : Oracles) :
    Nat → Checkpoint → StepId → LinkedInGraphState →
    Checkpoint × Option String × List StepId
  | 0, committed, _, _ => (committed, some "recursion limit reached", [])
  | fuel + 1, committed, step, s =>
    match runStep o step s with
    | .error e => (committed, some e, [])
    | .ok u =>
      let s2 := mergeUpdate s u
      match nextStep step s2 with
      | none => ({ state := s2, pending_step := none, terminated := true }, none, [step])
      | some nxt =>
        let cp2 : Checkpoint := { state := s2, pending_step := some nxt, terminated := false }
        if pausesBefore nxt then (cp2, none, [step])
        else
          match advanceLoop o fuel cp2 nxt s2 with
          | (cp3, err, tr) => (cp3, err, step :: tr)

/-- Modelled from the spec: the ExecutionEngine `advance` operation on a
session's stored checkpoint (the engine is the external graph runtime, not
code under src/).  Load or lazily create the checkpoint; a terminated
session is an idempotent no-op; otherwise merge the caller's input into the
working state and run the loop from the pending step — which executes a
pause step's handler when the session was paused before it (resume). -/
def advance (o : Oracles) (fuel : Nat) (store : Option Checkpoint)
    (input : Option StateUpdate) : Checkpoint × Option String × List StepId :=
  let cp := store.getD initCheckpoint
  if cp.terminated then (cp, none, [])
  else
    match cp.pending_step with
    | none => (cp, none, [])
    | some step =>
      let s := match input with
        | some u => mergeUpdate cp.state u
        | none => cp.state
      advanceLoop o fuel cp step s

/-- Modelled from the spec: the StateUpdater `apply` operation (the
state-injection entry point behind the /process endpoint's
`graph.update_state(..., as_node="human_review_node")`; the updater lives in
the external graph runtime, not under src/).  It fails with an attribution
error when no checkpoint exists or when the attributed step is not the
pending one; on success the partial update is shallow-merged and committed
with `pending_step` unchanged. -/
def applyUpdate (store : Option Checkpoint) (attributedStep : StepId)
    (upd : StateUpdate) : Except String Checkpoint :=
  match store with
  | none => .error "AttributionError: no checkpoint for session"
  | some cp =>
    if cp.pending_step = some attributedStep then
      .ok { cp with state := mergeUpdate cp.state upd }
    else
      .error "AttributionError: pending step mismatch"

/-- The session store after an `applyUpdate` call: unchanged when the call
failed, the committed checkpoint when it succeeded. -/
def storeAfterApply (store : Option Checkpoint) (attributedStep : StepId)
    (upd : StateUpdate) : Option Checkpoint :=
  match applyUpdate store attributedStep upd with
  | .ok cp => some cp
  | .error _ => store

/-- A concrete oracle whose routing reply requests post generation and whose
post reply parses to a draft; delivery succeeds. -/
def oPost : Oracles where
  gen := fun p => match p with
    | .chat _ _ _ => Except.ok "r1"
    | .post _ _ => Except.ok "r2"
    | _ => Except.ok "r3"
  parse := fun s =>
    if s = "r1" then some (Json.obj [("route_decision", Json.str "post_generation"),
        ("assistant_reply", Json.str "Working on it")])
    else if s = "r2" then some (Json.obj [("post_text", Json.str "v1")])
    else none
  deliver := fun _ _ => Except.ok ()

/-- Input state of the concrete post-generation run. -/
def sPostIn : LinkedInGraphState := { user_input := "write a post" }

/-- The checkpoint the concrete post-generation run pauses at: the chat and
post steps have committed, the session is paused before `human_review_node`. -/
def pauseCp : Checkpoint where
  state :=
    { chat_history := [⟨"user", Json.str "write a post"⟩,
                       ⟨"assistant", Json.str "Working on it"⟩],
      user_input := "write a post",
      intent := some (Json.str "post_generation"),
      response := some (Json.obj [("chat_reply", Json.str "Working on it")]),
      post_draft := some (Json.obj [("post_text", Json.str "v1")]),
      approval_status := some "pending" }
  pending_step := some StepId.human_review_node
  terminated := false

/-- An oracle whose delivery collaborator always fails at the transport
level (connection refused) while generation parses fine. -/
def oFail : Oracles where
  gen := fun _ => Except.ok "r1"
  parse := fun _ => some (Json.obj [("k", Json.str "v")])
  deliver := fun _ _ => Except.error "connection refused"

/-- An oracle whose generation transport always fails. -/
def oGenFail : Oracles where
  gen := fun _ => Except.error "connection timed out"
  parse := fun _ => none
  deliver := fun _ _ => Except.ok ()

/-- An oracle whose generation succeeds but whose output never parses as
JSON. -/
def oNoParse : Oracles where
  gen := fun _ => Except.ok "oops not json"
  parse := fun _ => none
  deliver := fun _ _ => Except.ok ()

/-- A checkpoint paused before the review step with an approved draft, as
left by a successful `applyUpdate` of `approval_status = "approved"`. -/
def cpApproved : Checkpoint where
  state :=
    { user_input := "write a post",
      post_draft := some (Json.obj [("post_text", Json.str "v1")]),
      approval_status := some "approved" }
  pending_step := some StepId.human_review_node
  terminated := false

/-- A terminated session's checkpoint. -/
def cpTerm : Checkpoint where
  state := { intent := some (Json.str "chat") }
  pending_step := none
  terminated := true

/-- Concrete state for the shallow-merge witness. -/
def s3ex : LinkedInGraphState :=
  { user_input := "hello", approval_status := some "pending" }

/-- Concrete update for the shallow-merge witness: names only `post_draft`. -/
def u3ex : StateUpdate := { post_draft := some (Json.str "d") }

/-- Two states agreeing on `intent` and `approval_status` but nothing else,
for the routing-determinism witness. -/
def s8a : LinkedInGraphState :=
  { user_input := "a", intent := some (Json.str "post_generation"),
    approval_status := some "approved" }

/-- See `s8a`. -/
def s8b : LinkedInGraphState :=
  { user_input := "b", intent := some (Json.str "post_generation"),
    approval_status := some "approved", user_feedback := "shorter" }

/-- The approval update injected by the /process endpoint when the caller
approves (`update_state(..., \x7b"approval_status": "approved"\x7d, as_node="human_review_node")`,
line 290). -/
def uApprove : StateUpdate := { approval_status := some "approved" }

/-- The checkpoint committed by a successful approval injection on
`pauseCp`. -/
def cpAfterApprove : Checkpoint where
  state := mergeUpdate pauseCp.state uApprove
  pending_step := pauseCp.pending_step
  terminated := pauseCp.terminated

/-- Helper: the only step flagged to pause is `human_review_node`. -/
theorem pausesBefore_eq_review (p : StepId) (h : pausesBefore p = true) :
    p = StepId.human_review_node := by
  cases p <;> first | rfl | simp [pausesBefore] at h

/-- Helper: the only transitions targeting `human_review_node` come from the
post step and the refinement step. -/
theorem nextStep_eq_review (p : StepId) (s : LinkedInGraphState)
    (h : nextStep p s = some StepId.human_review_node) :
    p = StepId.post_node ∨ p = StepId.refinement_node := by
  cases p with
  | chat_node =>
    exfalso
    simp only [nextStep] at h
    split_ifs at h <;> exact absurd h (by decide)
  | campaign_node => simp [nextStep] at h
  | post_node => exact Or.inl rfl
  | human_review_node =>
    exfalso
    simp only [nextStep] at h
    split_ifs at h <;> exact absurd h (by decide)
  | refinement_node => exact Or.inr rfl
  | webhook_node => simp [nextStep] at h

/-- C3: merging a step output into a state replaces exactly the top-level
keys the output names and leaves every other key unchanged; in particular
the post step's output sets only `post_draft` and `approval_status`,
leaving `chat_history`, `context` and all sibling keys untouched. -/
theorem merge_shallow_correct (s : LinkedInGraphState) (u : StateUpdate) :
    (u.chat_history = none → (mergeUpdate s u).chat_history = s.chat_history) ∧
    (∀ v, u.chat_history = some v → (mergeUpdate s u).chat_history = v) ∧
    (u.user_input = none → (mergeUpdate s u).user_input = s.user_input) ∧
    (∀ v, u.user_input = some v → (mergeUpdate s u).user_input = v) ∧
    (u.intent = none → (mergeUpdate s u).intent = s.intent) ∧
    (∀ v, u.intent = some v → (mergeUpdate s u).intent = some v) ∧
    (u.context = none → (mergeUpdate s u).context = s.context) ∧
    (∀ v, u.context = some v → (mergeUpdate s u).context = some v) ∧
    (u.response = none → (mergeUpdate s u).response = s.response) ∧
    (∀ v, u.response = some v → (mergeUpdate s u).response = some v) ∧
    (u.post_draft = none → (mergeUpdate s u).post_draft = s.post_draft) ∧
    (∀ v, u.post_draft = some v → (mergeUpdate s u).post_draft = some v) ∧
    (u.user_feedback = none → (mergeUpdate s u).user_feedback = s.user_feedback) ∧
    (∀ v, u.user_feedback = some v → (mergeUpdate s u).user_feedback = v) ∧
    (u.approval_status = none → (mergeUpdate s u).approval_status = s.approval_status) ∧
    (∀ v, u.approval_status = some v → (mergeUpdate s u).approval_status = some v) ∧
    (u.webhook_response = none → (mergeUpdate s u).webhook_response = s.webhook_response) ∧
    (∀ v, u.webhook_response = some v → (mergeUpdate s u).webhook_response = some v) ∧
    (∀ (o : Oracles) (u' : StateUpdate), lk_post_node o s = Except.ok u' →
      (mergeUpdate s u').chat_history = s.chat_history ∧
      (mergeUpdate s u').user_input = s.user_input ∧
      (mergeUpdate s u').intent = s.intent ∧
      (mergeUpdate s u').context = s.context ∧
      (mergeUpdate s u').response = s.response ∧
      (mergeUpdate s u').user_feedback = s.user_feedback ∧
      (mergeUpdate s u').webhook_response = s.webhook_response ∧
      (mergeUpdate s u').approval_status = some "pending" ∧
      ∃ d, (mergeUpdate s u').post_draft = some d) := by
  refine ⟨?_, ?_, ?_, ?_, ?_, ?_, ?_, ?_, ?_, ?_, ?_, ?_, ?_, ?_, ?_, ?_, ?_, ?_, ?_⟩
  all_goals try (intro h; simp [mergeUpdate, h])
  all_goals try (intro v h; simp [mergeUpdate, h])
  intro o u' h
  unfold lk_post_node at h
  cases hw : wrapperInvoke o (.post s.user_input (s.context.getD Json.null)) with
  | error e => rw [hw] at h; simp [Bind.bind, Except.bind] at h
  | ok res =>
    rw [hw] at h
    simp only [Bind.bind, Except.bind, pure, Except.pure, Except.ok.injEq] at h
    subst h
    simp [mergeUpdate]

/-- Witness for C3 at a concrete state and update. -/
theorem merge_shallow_correct_witness :
    (mergeUpdate s3ex u3ex).post_draft = some (Json.str "d") ∧
    (mergeUpdate s3ex u3ex).user_input = s3ex.user_input ∧
    (mergeUpdate s3ex u3ex).chat_history = s3ex.chat_history := by
  obtain ⟨hch_n, hch_s, hui_n, hui_s, hin_n, hin_s, hcx_n, hcx_s, hre_n, hre_s,
    hpd_n, hpd_s, hfb_n, hfb_s, hap_n, hap_s, hwh_n, hwh_s, hpost⟩ :=
      merge_shallow_correct s3ex u3ex
  exact ⟨hpd_s (Json.str "d") rfl, hui_n rfl, hch_n rfl⟩

/-- C8: routing is deterministic and pure — each transition rule depends
only on the state fields it reads (`intent` for the chat edge,
`approval_status` for the review edge; the remaining edges are constant),
so evaluating it twice on the same (step, state) pair always yields the
same next step or Terminal. -/
theorem routing_pure :
    (∀ s t : LinkedInGraphState, s.intent = t.intent →
      nextStep StepId.chat_node s = nextStep StepId.chat_node t) ∧
    (∀ s t : LinkedInGraphState, s.approval_status = t.approval_status →
      nextStep StepId.human_review_node s = nextStep StepId.human_review_node t) ∧
    (∀ s t : LinkedInGraphState, nextStep StepId.campaign_node s = nextStep StepId.campaign_node t) ∧
    (∀ s t : LinkedInGraphState, nextStep StepId.post_node s = nextStep StepId.post_node t) ∧
    (∀ s t : LinkedInGraphState, nextStep StepId.refinement_node s = nextStep StepId.refinement_node t) ∧
    (∀ s t : LinkedInGraphState, nextStep StepId.webhook_node s = nextStep StepId.webhook_node t) := by
  refine ⟨?_, ?_, ?_, ?_, ?_, ?_⟩ <;> intro s t
  · intro h; simp only [nextStep, h]
  · intro h; simp only [nextStep, h]
  all_goals rfl

/-- Witness for C8: two states differing everywhere except in the fields
the transition rules read route identically. -/
theorem routing_pure_witness :
    nextStep StepId.chat_node s8a = nextStep StepId.chat_node s8b ∧
    nextStep StepId.human_review_node s8a = nextStep StepId.human_review_node s8b ∧
    nextStep StepId.chat_node s8a = some StepId.post_node := by
  refine ⟨routing_pure.1 s8a s8b rfl, routing_pure.2.1 s8a s8b rfl, rfl⟩

/-- C9: `chat_history` is append-only — the chat step (the only step that
writes `chat_history`) outputs exactly the previous history extended with
one user record carrying the submitted input and one assistant record; no
other step names the key, and a merge that does not name the key leaves the
history unchanged. -/
theorem chat_history_append_only (o : Oracles) :
    (∀ (s : LinkedInGraphState) (u : StateUpdate), lk_chat_node o s = Except.ok u →
      ∃ reply, u.chat_history = some (s.chat_history ++
        [⟨"user", Json.str s.user_input⟩, ⟨"assistant", reply⟩])) ∧
    (∀ (step : StepId) (s : LinkedInGraphState) (u : StateUpdate),
      runStep o step s = Except.ok u → step ≠ StepId.chat_node →
      u.chat_history = none) ∧
    (∀ (s : LinkedInGraphState) (u : StateUpdate), u.chat_history = none →
      (mergeUpdate s u).chat_history = s.chat_history) := by
  refine ⟨?_, ?_, ?_⟩
  · intro s u h
    unfold lk_chat_node at h
    cases hw : wrapperInvoke o (.chat (s.context.getD (Json.obj [])) s.chat_history s.user_input) with
    | error e => rw [hw] at h; simp [Bind.bind, Except.bind] at h
    | ok res =>
      rw [hw] at h
      simp only [Bind.bind, Except.bind, pure, Except.pure, Except.ok.injEq] at h
      subst h
      exact ⟨res.getD "assistant_reply" (Json.str "Hi"), rfl⟩
  · intro step s u h hne
    cases step with
    | chat_node => exact absurd rfl hne
    | campaign_node =>
      simp only [runStep] at h
      unfold lk_campaign_node at h
      cases hw : wrapperInvoke o (.campaign s.user_input (s.context.getD Json.null)) with
      | error e => rw [hw] at h; simp [Bind.bind, Except.bind] at h
      | ok res =>
        rw [hw] at h
        simp only [Bind.bind, Except.bind, pure, Except.pure, Except.ok.injEq] at h
        subst h; rfl
    | post_node =>
      simp only [runStep] at h
      unfold lk_post_node at h
      cases hw : wrapperInvoke o (.post s.user_input (s.context.getD Json.null)) with
      | error e => rw [hw] at h; simp [Bind.bind, Except.bind] at h
      | ok res =>
        rw [hw] at h
        simp only [Bind.bind, Except.bind, pure, Except.pure, Except.ok.injEq] at h
        subst h; rfl
    | human_review_node =>
      simp only [runStep] at h
      simp only [pure, Except.pure, Except.ok.injEq] at h
      subst h; rfl
    | refinement_node =>
      simp only [runStep] at h
      unfold lk_refinement_node at h
      cases hw : wrapperInvoke o (.refine (s.post_draft.getD (Json.obj [])) s.user_feedback) with
      | error e => rw [hw] at h; simp [Bind.bind, Except.bind] at h
      | ok res =>
        rw [hw] at h
        simp only [Bind.bind, Except.bind, pure, Except.pure, Except.ok.injEq] at h
        subst h; rfl
    | webhook_node =>
      simp only [runStep] at h
      simp only [pure, Except.pure, Except.ok.injEq] at h
      subst h
      unfold lk_webhook_node
      cases o.deliver (s.post_draft.getD (Json.obj [])) webhookTimeoutSeconds <;> rfl
  · intro s u h; simp [mergeUpdate, h]

/-- Witness for C9 on the concrete post-generation oracle. -/
theorem chat_history_append_only_witness :
    lk_chat_node oPost sPostIn = Except.ok
      { chat_history := some [⟨"user", Json.str "write a post"⟩,
          ⟨"assistant", Json.str "Working on it"⟩],
        intent := some (Json.str "post_generation"),
        response := some (Json.obj [("chat_reply", Json.str "Working on it")]) } ∧
    (∃ reply,
      ({ chat_history := some [⟨"user", Json.str "write a post"⟩,
           ⟨"assistant", Json.str "Working on it"⟩],
         intent := some (Json.str "post_generation"),
         response := some (Json.obj [("chat_reply", Json.str "Working on it")]) } :
        StateUpdate).chat_history = some (sPostIn.chat_history ++
          [⟨"user", Json.str sPostIn.user_input⟩, ⟨"assistant", reply⟩])) := by
  refine ⟨by rfl, (chat_history_append_only oPost).1 sPostIn _ (by rfl)⟩

/-- C10 (implicit): when the generation reply to the chat/routing step fails
to parse, the wrapper's error marker carries no `route_decision` or
`assistant_reply` key, so the chat step defaults `intent` to `"chat"` and
the assistant reply to the fixed fallback `"Hi"`, and the routing edge out
of `chat_node` then goes straight to Terminal — never to the campaign or
post paths. -/
theorem malformed_route_reply_is_terminal (o : Oracles) (s : LinkedInGraphState)
    (content : String)
    (hgen : o.gen (.chat (s.context.getD (Json.obj [])) s.chat_history s.user_input) =
      Except.ok content)
    (hparse : o.parse (pyStrip (stripCodeFences (pyStrip content))) = none) :
    lk_chat_node o s = Except.ok
      { chat_history := some (s.chat_history ++
          [⟨"user", Json.str s.user_input⟩, ⟨"assistant", Json.str "Hi"⟩]),
        intent := some (Json.str "chat"),
        response := some (Json.obj [("chat_reply", Json.str "Hi")]) } ∧
    (∀ u : StateUpdate, lk_chat_node o s = Except.ok u →
      nextStep StepId.chat_node (mergeUpdate s u) = none) := by
  have hw : wrapperInvoke o (.chat (s.context.getD (Json.obj [])) s.chat_history s.user_input) =
      Except.ok (parseFailureMarker (stripCodeFences (pyStrip content))) := by
    unfold wrapperInvoke
    rw [hgen]
    simp only [Bind.bind, Except.bind, hparse]
    rfl
  have hnode : lk_chat_node o s = Except.ok
      { chat_history := some (s.chat_history ++
          [⟨"user", Json.str s.user_input⟩, ⟨"assistant", Json.str "Hi"⟩]),
        intent := some (Json.str "chat"),
        response := some (Json.obj [("chat_reply", Json.str "Hi")]) } := by
    unfold lk_chat_node
    rw [hw]
    simp only [Bind.bind, Except.bind]
    rfl
  refine ⟨hnode, ?_⟩
  intro u hu
  rw [hnode] at hu
  cases hu
  simp [nextStep, mergeUpdate, isStrVal]

/-- Witness for C10 on a concrete oracle whose reply never parses. -/
theorem malformed_route_reply_is_terminal_witness :
    oNoParse.gen (.chat (sPostIn.context.getD (Json.obj [])) sPostIn.chat_history
        sPostIn.user_input) = Except.ok "oops not json" ∧
    oNoParse.parse (pyStrip (stripCodeFences (pyStrip "oops not json"))) = none ∧
    (lk_chat_node oNoParse sPostIn = Except.ok
      { chat_history := some (sPostIn.chat_history ++
          [⟨"user", Json.str sPostIn.user_input⟩, ⟨"assistant", Json.str "Hi"⟩]),
        intent := some (Json.str "chat"),
        response := some (Json.obj [("chat_reply", Json.str "Hi")]) } ∧
    (∀ u : StateUpdate, lk_chat_node oNoParse sPostIn = Except.ok u →
      nextStep StepId.chat_node (mergeUpdate sPostIn u) = none)) :=
  ⟨rfl, rfl, malformed_route_reply_is_terminal oNoParse sPostIn "oops not json" rfl rfl⟩

/-- C2: the externally-callable state injection fails with an attribution
error — leaving the stored session state unchanged — when no checkpoint
exists for the session or when the attributed step is not the pending one;
only when they match is the partial update shallow-merged and committed,
with `pending_step` (and the terminated flag) unchanged. -/
theorem apply_attribution (store : Option Checkpoint) (step : StepId) (u : StateUpdate) :
    (store = none →
      applyUpdate store step u = Except.error "AttributionError: no checkpoint for session" ∧
      storeAfterApply store step u = store) ∧
    (∀ cp : Checkpoint, store = some cp → cp.pending_step ≠ some step →
      applyUpdate store step u = Except.error "AttributionError: pending step mismatch" ∧
      storeAfterApply store step u = store) ∧
    (∀ cp : Checkpoint, store = some cp → cp.pending_step = some step →
      applyUpdate store step u = Except.ok
        { state := mergeUpdate cp.state u, pending_step := cp.pending_step,
          terminated := cp.terminated } ∧
      storeAfterApply store step u = some
        { state := mergeUpdate cp.state u, pending_step := cp.pending_step,
          terminated := cp.terminated }) := by
  refine ⟨?_, ?_, ?_⟩
  · intro h; subst h; exact ⟨rfl, rfl⟩
  · intro cp h hne; subst h
    simp [applyUpdate, storeAfterApply, hne]
  · intro cp h hpe; subst h
    simp [applyUpdate, storeAfterApply, hpe]

/-- Witness for C2: a mismatching attribution and a missing checkpoint both
fail and leave the store unchanged; the matching attribution commits. -/
theorem apply_attribution_witness :
    (applyUpdate (some pauseCp) StepId.chat_node uApprove =
      Except.error "AttributionError: pending step mismatch" ∧
     storeAfterApply (some pauseCp) StepId.chat_node uApprove = some pauseCp) ∧
    (applyUpdate none StepId.human_review_node uApprove =
      Except.error "AttributionError: no checkpoint for session") ∧
    (applyUpdate (some pauseCp) StepId.human_review_node uApprove = Except.ok cpAfterApprove) :=
  ⟨(apply_attribution (some pauseCp) StepId.chat_node uApprove).2.1 pauseCp rfl (by decide),
   ((apply_attribution none StepId.human_review_node uApprove).1 rfl).1,
   ((apply_attribution (some pauseCp) StepId.human_review_node uApprove).2.2 pauseCp rfl rfl).1⟩

/-- C6: an `advance` with no input on an already-terminated session is an
idempotent no-op — it returns the stored checkpoint unchanged (same state,
`pending_step` and terminated flag), executes no step, and a repeated call
on the result returns the same thing again. -/
theorem terminated_advance_idempotent (o : Oracles) (fuel : Nat) (cp : Checkpoint)
    (h : cp.terminated = true) :
    advance o fuel (some cp) none = (cp, none, []) ∧
    advance o fuel (some (advance o fuel (some cp) none).1) none = (cp, none, []) := by
  have h1 : advance o fuel (some cp) none = (cp, none, []) := by
    simp [advance, h]
  exact ⟨h1, by rw [h1]; simp [advance, h]⟩

/-- Witness for C6 on a concrete terminated checkpoint. -/
theorem terminated_advance_idempotent_witness :
    cpTerm.terminated = true ∧
    advance oPost 5 (some cpTerm) none = (cpTerm, none, []) ∧
    advance oPost 5 (some (advance oPost 5 (some cpTerm) none).1) none = (cpTerm, none, []) :=
  ⟨rfl, (terminated_advance_idempotent oPost 5 cpTerm rfl).1,
    (terminated_advance_idempotent oPost 5 cpTerm rfl).2⟩

/-- C7: the delivery step makes exactly one delivery attempt — its output is
fully determined by the result of the single `deliver` call on the current
draft with the 10-second timeout, with no retry — and stores the outcome
verbatim into the delivery-result field as a success record or an error
record carrying the failure message. -/
theorem webhook_delivery_contract (o o' : Oracles) (s : LinkedInGraphState) :
    webhookTimeoutSeconds = 10 ∧
    (o.deliver (s.post_draft.getD (Json.obj [])) webhookTimeoutSeconds = Except.ok () →
      lk_webhook_node o s =
        { webhook_response := some (Json.obj [("status", Json.str "success")]) }) ∧
    (∀ m, o.deliver (s.post_draft.getD (Json.obj [])) webhookTimeoutSeconds = Except.error m →
      lk_webhook_node o s =
        { webhook_response := some (Json.obj
            [("status", Json.str "error"), ("error_message", Json.str m)]) }) ∧
    (o.deliver (s.post_draft.getD (Json.obj [])) webhookTimeoutSeconds =
        o'.deliver (s.post_draft.getD (Json.obj [])) webhookTimeoutSeconds →
      lk_webhook_node o s = lk_webhook_node o' s) := by
  refine ⟨rfl, ?_, ?_, ?_⟩
  · intro h; unfold lk_webhook_node; rw [h]
  · intro m h; unfold lk_webhook_node; rw [h]
  · intro h; unfold lk_webhook_node; rw [h]

/-- Witness for C7: a successful and a transport-failing delivery on the
approved draft. -/
theorem webhook_delivery_contract_witness :
    lk_webhook_node oPost cpApproved.state =
      { webhook_response := some (Json.obj [("status", Json.str "success")]) } ∧
    lk_webhook_node oFail cpApproved.state =
      { webhook_response := some (Json.obj
          [("status", Json.str "error"), ("error_message", Json.str "connection refused")]) } :=
  ⟨(webhook_delivery_contract oPost oPost cpApproved.state).2.1 rfl,
   (webhook_delivery_contract oFail oFail cpApproved.state).2.2.1 "connection refused" rfl⟩

/-- C5: when the generation collaborator's output for the post step fails
JSON parsing, the step does not abort the advance — the wrapper returns an
explicit error-marker mapping with an `error` field and the raw content,
the step's output merges it into `post_draft` like any ordinary output, and
the advance continues (here: on to the pause before review) without
surfacing an error. -/
theorem parse_failure_recovered (o : Oracles) (s : LinkedInGraphState)
    (content : String) (committed : Checkpoint) (fuel : Nat)
    (hgen : o.gen (.post s.user_input (s.context.getD Json.null)) = Except.ok content)
    (hparse : o.parse (pyStrip (stripCodeFences (pyStrip content))) = none) :
    wrapperInvoke o (.post s.user_input (s.context.getD Json.null)) = Except.ok
      (Json.obj [("error", Json.str "JSON parse failed"),
        ("raw_content", Json.str (stripCodeFences (pyStrip content)))]) ∧
    lk_post_node o s = Except.ok
      { post_draft := some (Json.obj [("error", Json.str "JSON parse failed"),
          ("raw_content", Json.str (stripCodeFences (pyStrip content)))]),
        approval_status := some "pending" } ∧
    advanceLoop o (fuel + 1) committed StepId.post_node s =
      ({ state := mergeUpdate s
            { post_draft := some (Json.obj [("error", Json.str "JSON parse failed"),
                ("raw_content", Json.str (stripCodeFences (pyStrip content)))]),
              approval_status := some "pending" },
          pending_step := some StepId.human_review_node, terminated := false },
        none, [StepId.post_node]) := by
  have hw : wrapperInvoke o (.post s.user_input (s.context.getD Json.null)) = Except.ok
      (Json.obj [("error", Json.str "JSON parse failed"),
        ("raw_content", Json.str (stripCodeFences (pyStrip content)))]) := by
    unfold wrapperInvoke
    rw [hgen]
    simp only [Bind.bind, Except.bind, hparse]
    rfl
  have hnode : lk_post_node o s = Except.ok
      { post_draft := some (Json.obj [("error", Json.str "JSON parse failed"),
          ("raw_content", Json.str (stripCodeFences (pyStrip content)))]),
        approval_status := some "pending" } := by
    unfold lk_post_node
    rw [hw]
    rfl
  refine ⟨hw, hnode, ?_⟩
  simp only [advanceLoop, runStep, hnode]
  rfl

/-- Witness for C5 on a concrete never-parsing oracle. -/
theorem parse_failure_recovered_witness :
    oNoParse.gen (.post sPostIn.user_input (sPostIn.context.getD Json.null)) =
      Except.ok "oops not json" ∧
    oNoParse.parse (pyStrip (stripCodeFences (pyStrip "oops not json"))) = none ∧
    lk_post_node oNoParse sPostIn = Except.ok
      { post_draft := some (Json.obj [("error", Json.str "JSON parse failed"),
          ("raw_content", Json.str (stripCodeFences (pyStrip "oops not json")))]),
        approval_status := some "pending" } ∧
    (advanceLoop oNoParse 3 cpTerm StepId.post_node sPostIn).2.1 = none :=
  ⟨rfl, rfl,
   (parse_failure_recovered oNoParse sPostIn "oops not json" cpTerm 2 rfl rfl).2.1,
   by rw [(parse_failure_recovered oNoParse sPostIn "oops not json" cpTerm 2 rfl rfl).2.2]⟩

/-- Counterexample to C4 as stated: a delivery-backend transport failure is
not surfaced as a failed call and the checkpoint does not stay as it was.
With every delivery attempt failing (connection refused), resuming the
approved session completes with no error, commits the webhook step's error
record into the state, and terminates the session — the checkpoint changes. -/
theorem delivery_failure_absorbed_counterexample :
    oFail.deliver (cpApproved.state.post_draft.getD (Json.obj [])) webhookTimeoutSeconds =
      Except.error "connection refused" ∧
    (advance oFail 5 (some cpApproved) none).2.1 = none ∧
    (advance oFail 5 (some cpApproved) none).2.2 =
      [StepId.human_review_node, StepId.webhook_node] ∧
    (advance oFail 5 (some cpApproved) none).1.terminated = true ∧
    cpApproved.terminated = false ∧
    (advance oFail 5 (some cpApproved) none).1.state.webhook_response =
      some (Json.obj [("status", Json.str "error"),
        ("error_message", Json.str "connection refused")]) ∧
    (advance oFail 5 (some cpApproved) none).1 ≠ cpApproved := by
  refine ⟨rfl, rfl, rfl, rfl, rfl, rfl, ?_⟩
  intro h
  exact absurd (congrArg Checkpoint.terminated h) (by decide)

/-- C4 (amended): a *generation* transport failure propagates out of the
advance as a failed call and the failing step commits nothing — the
checkpoint stays at the last commit before that step (the pre-advance
checkpoint when the failure hits the first step of the advance); a
*delivery* transport failure, by contrast, is caught inside the webhook
step, which succeeds with an error record stored into `webhook_response`,
so the advance continues normally. -/
theorem transport_failure_semantics (o : Oracles) :
    (∀ (fuel : Nat) (committed : Checkpoint) (step : StepId) (s : LinkedInGraphState)
      (e : String), runStep o step s = Except.error e →
      advanceLoop o (fuel + 1) committed step s = (committed, some e, [])) ∧
    (∀ (s : LinkedInGraphState) (e : String),
      o.gen (.post s.user_input (s.context.getD Json.null)) = Except.error e →
      runStep o StepId.post_node s = Except.error e) ∧
    (∀ (s : LinkedInGraphState) (m : String),
      o.deliver (s.post_draft.getD (Json.obj [])) webhookTimeoutSeconds = Except.error m →
      runStep o StepId.webhook_node s = Except.ok
        { webhook_response := some (Json.obj
            [("status", Json.str "error"), ("error_message", Json.str m)]) }) := by
  refine ⟨?_, ?_, ?_⟩
  · intro fuel committed step s e h
    simp only [advanceLoop, h]
  · intro s e h
    simp only [runStep]
    unfold lk_post_node wrapperInvoke
    rw [h]
    rfl
  · intro s m h
    simp only [runStep]
    unfold lk_webhook_node
    rw [h]
    rfl

/-- Witness for the amended C4: a concrete generation transport failure
surfaces and commits nothing; a concrete delivery transport failure is
absorbed as an error record. -/
theorem transport_failure_semantics_witness :
    runStep oGenFail StepId.chat_node sPostIn = Except.error "connection timed out" ∧
    advanceLoop oGenFail 1 initCheckpoint StepId.chat_node sPostIn =
      (initCheckpoint, some "connection timed out", []) ∧
    oFail.deliver (cpApproved.state.post_draft.getD (Json.obj [])) webhookTimeoutSeconds =
      Except.error "connection refused" ∧
    runStep oFail StepId.webhook_node cpApproved.state = Except.ok
      { webhook_response := some (Json.obj [("status", Json.str "error"),
          ("error_message", Json.str "connection refused")]) } :=
  ⟨rfl,
   (transport_failure_semantics oGenFail).1 0 initCheckpoint StepId.chat_node sPostIn
     "connection timed out" rfl,
   rfl,
   (transport_failure_semantics oFail).2.2 cpApproved.state "connection refused" rfl⟩

/-- C1: pause-before guarantee — whenever the engine loop stops with a
pending step, that step is the designated pause step `human_review_node`,
the session is not terminated, and the committed observable state is
exactly the predecessor step's committed output (the state before the
predecessor ran, shallow-merged with its output); the predecessor — the
last step executed in this advance — is the post or refinement step whose
transition targeted the pause step, so the pause step's own handler has not
run since that arrival. -/
theorem pause_before_guarantee (o : Oracles) :
    ∀ (fuel : Nat) (committed cp : Checkpoint) (step : StepId) (s : LinkedInGraphState)
      (tr : List StepId) (q : StepId),
      advanceLoop o fuel committed step s = (cp, none, tr) →
      cp.pending_step = some q →
      pausesBefore q = true ∧ q = StepId.human_review_node ∧ cp.terminated = false ∧
      ∃ (p : StepId) (s0 : LinkedInGraphState) (u : StateUpdate) (tr0 : List StepId),
        runStep o p s0 = Except.ok u ∧
        cp.state = mergeUpdate s0 u ∧
        nextStep p cp.state = some q ∧
        (p = StepId.post_node ∨ p = StepId.refinement_node) ∧
        tr = tr0 ++ [p] := by
  intro fuel
  induction fuel with
  | zero =>
    intro committed cp step s tr q h hq
    simp [advanceLoop] at h
  | succ n ih =>
    intro committed cp step s tr q h hq
    simp only [advanceLoop] at h
    split at h
    · -- the step's handler failed: the loop surfaced the error
      simp at h
    · rename_i u hrun
      split at h
      · -- terminal transition: pending_step is none, contradicting hq
        injection h with hcp hrest
        subst hcp
        simp at hq
      · rename_i nxt hnext
        split at h
        · -- transition into a pause step: the loop committed and stopped
          rename_i hpb
          injection h with hcp hrest
          injection hrest with herr htr
          subst hcp
          subst htr
          have hq' : nxt = q := Option.some.inj hq
          subst hq'
          have hrev : nxt = StepId.human_review_node := pausesBefore_eq_review nxt hpb
          subst hrev
          exact ⟨hpb, rfl, rfl, step, s, u, [], hrun, rfl, hnext,
            nextStep_eq_review step (mergeUpdate s u) hnext, rfl⟩
        · -- ordinary transition: recurse and lift the induction hypothesis
          rename_i hpb
          injection h with hcp hrest
          injection hrest with herr htr
          obtain ⟨hpb', hq', hterm, p, s0, u', tr0, hrun', hst, hnx, hpred, htr0⟩ :=
            ih ⟨mergeUpdate s u, some nxt, false⟩ cp nxt (mergeUpdate s u)
              (advanceLoop o n ⟨mergeUpdate s u, some nxt, false⟩ nxt (mergeUpdate s u)).2.2 q
              (by rw [← hcp, ← herr]) hq
          refine ⟨hpb', hq', hterm, p, s0, u', step :: tr0, hrun', hst, hnx, hpred, ?_⟩
          rw [← htr, htr0]
          rfl

/-- Witness for C1: the concrete post-generation run pauses before
`human_review_node` with the post step's committed output observable. -/
theorem pause_before_guarantee_witness :
    advanceLoop oPost 5 initCheckpoint StepId.chat_node sPostIn =
      (pauseCp, none, [StepId.chat_node, StepId.post_node]) ∧
    pauseCp.pending_step = some StepId.human_review_node ∧
    (pausesBefore StepId.human_review_node = true ∧
     StepId.human_review_node = StepId.human_review_node ∧
     pauseCp.terminated = false ∧
     ∃ (p : StepId) (s0 : LinkedInGraphState) (u : StateUpdate) (tr0 : List StepId),
       runStep oPost p s0 = Except.ok u ∧
       pauseCp.state = mergeUpdate s0 u ∧
       nextStep p pauseCp.state = some StepId.human_review_node ∧
       (p = StepId.post_node ∨ p = StepId.refinement_node) ∧
       [StepId.chat_node, StepId.post_node] = tr0 ++ [p]) :=
  ⟨rfl, rfl,
   pause_before_guarantee oPost 5 initCheckpoint pauseCp StepId.chat_node sPostIn
     [StepId.chat_node, StepId.post_node] StepId.human_review_node rfl rfl⟩
